/- Verification of the edge-agent LLM proxy core: cache fingerprinting,
   two-tier cache orchestration, request pipeline, circuit breaking,
   provider health tracking, failover routing and retry backoff.

   The definitions below are shallow embeddings of the Rust sources:
     crates/llm-edge-cache/src/key.rs      (fingerprinting)
     crates/llm-edge-cache/src/l1.rs       (cached response data model)
     crates/llm-edge-cache/src/l2.rs       (L2 result shape)
     src/cache/mod.rs                      (CacheManager lookup/store)
     crates/llm-edge-agent/src/proxy.rs    (request pipeline)
     crates/llm-edge-routing/src/circuit_breaker.rs (circuit breaker)
     src/routing/circuit_breaker.rs        (call gating)
     src/routing/mod.rs                    (health tracking, engine view)
     src/routing/strategies.rs             (failover strategy, retry config)

   Machine integers are modelled as Nat with explicit wrap-around where it
   matters (SHA-256 words); f32/f64 quantities are modelled as Rat;
   instants are Nat clock readings with saturating subtraction for
   elapsed-time, mirroring Instant::elapsed against a later now. -/
import Mathlib

/-! ## SHA-256 (the `sha2` crate digest used by `generate_cache_key`),
    over lists of byte values. -/

/-- Wrap to a 32-bit word, the `u32` arithmetic of SHA-256. -/
def w32 (n : Nat) : Nat := n % 4294967296

/-- Rotate a 32-bit word right by `s` bits. -/
def rotr32 (s x : Nat) : Nat := w32 ((x >>> s) ||| (x <<< (32 - s)))

/-- SHA-256 big sigma 0. -/
def bsig0 (x : Nat) : Nat := (rotr32 2 x) ^^^ (rotr32 13 x) ^^^ (rotr32 22 x)

/-- SHA-256 big sigma 1. -/
def bsig1 (x : Nat) : Nat := (rotr32 6 x) ^^^ (rotr32 11 x) ^^^ (rotr32 25 x)

/-- SHA-256 small sigma 0. -/
def ssig0 (x : Nat) : Nat := (rotr32 7 x) ^^^ (rotr32 18 x) ^^^ (x >>> 3)

/-- SHA-256 small sigma 1. -/
def ssig1 (x : Nat) : Nat := (rotr32 17 x) ^^^ (rotr32 19 x) ^^^ (x >>> 10)

/-- The 64 SHA-256 round constants, in decimal. -/
def sha256K : List Nat :=
  [1116352408, 1899447441, 3049323471, 3921009573, 961987163, 1508970993,
   2453635748, 2870763221, 3624381080, 310598401, 607225278, 1426881987,
   1925078388, 2162078206, 2614888103, 3248222580, 3835390401, 4022224774,
   264347078, 604807628, 770255983, 1249150122, 1555081692, 1996064986,
   2554220882, 2821834349, 2952996808, 3210313671, 3336571891, 3584528711,
   113926993, 338241895, 666307205, 773529912, 1294757372, 1396182291,
   1695183700, 1986661051, 2177026350, 2456956037, 2730485921, 2820302411,
   3259730800, 3345764771, 3516065817, 3600352804, 4094571909, 275423344,
   430227734, 506948616, 659060556, 883997877, 958139571, 1322822218,
   1537002063, 1747873779, 1955562222, 2024104815, 2227730452, 2361852424,
   2428436474, 2756734187, 3204031479, 3329325298]

/-- The SHA-256 initial hash state. -/
def sha256H0 : List Nat :=
  [0x6a09e667, 0xbb67ae85, 0x3c6ef372, 0xa54ff53a, 0x510e527f, 0x9b05688c, 0x1f83d9ab, 0x5be0cd19]

/-- Big-endian 8-byte encoding of a length in bits. -/
def be64 (n : Nat) : List Nat :=
  [(n >>> 56) % 256, (n >>> 48) % 256, (n >>> 40) % 256, (n >>> 32) % 256,
   (n >>> 24) % 256, (n >>> 16) % 256, (n >>> 8) % 256, n % 256]

/-- SHA-256 padding: append 0x80, zeros to 56 mod 64, then the bit length. -/
def sha256Pad (msg : List Nat) : List Nat :=
  let len := msg.length
  let z := (119 - len % 64) % 64
  msg ++ [0x80] ++ List.replicate z 0 ++ be64 (8 * len)

/-- Group bytes into big-endian 32-bit words. -/
def bytesToWords (bs : List Nat) : List Nat :=
  (List.range (bs.length / 4)).map (fun i =>
    (bs.getD (4 * i) 0) <<< 24 ||| (bs.getD (4 * i + 1) 0) <<< 16 |||
    (bs.getD (4 * i + 2) 0) <<< 8 ||| bs.getD (4 * i + 3) 0)

/-- Extend 16 block words to the 64-entry SHA-256 message schedule. -/
def sha256Schedule (ws0 : List Nat) : List Nat :=
  (List.range 48).foldl (fun ws _ =>
    ws ++ [w32 (ssig1 (ws.getD (ws.length - 2) 0) + ws.getD (ws.length - 7) 0 +
                ssig0 (ws.getD (ws.length - 15) 0) + ws.getD (ws.length - 16) 0)]) ws0

/-- One SHA-256 compression round on the 8-word working state. -/
def sha256Round (st : List Nat) (wk : Nat × Nat) : List Nat :=
  let a := st.getD 0 0
  let b := st.getD 1 0
  let c := st.getD 2 0
  let d := st.getD 3 0
  let e := st.getD 4 0
  let f := st.getD 5 0
  let g := st.getD 6 0
  let h := st.getD 7 0
  let ch := (e &&& f) ^^^ ((0xffffffff ^^^ e) &&& g)
  let maj := (a &&& b) ^^^ (a &&& c) ^^^ (b &&& c)
  let t1 := w32 (h + bsig1 e + ch + wk.2 + wk.1)
  let t2 := w32 (bsig0 a + maj)
  [w32 (t1 + t2), a, b, c, w32 (d + t1), e, f, g]

/-- Compress one 64-byte block into the hash state. -/
def sha256Compress (h : List Nat) (block : List Nat) : List Nat :=
  let ws := sha256Schedule (bytesToWords block)
  let fin := (List.zip ws sha256K).foldl sha256Round h
  List.zipWith (fun x y => w32 (x + y)) h fin

/-- SHA-256 of a byte sequence, as the 8-word final state. -/
def sha256 (msg : List Nat) : List Nat :=
  let padded := sha256Pad msg
  (List.range (padded.length / 64)).foldl
    (fun h i => sha256Compress h ((padded.drop (64 * i)).take 64)) sha256H0

/-- Lowercase hex digit for a value below 16: digits from code 48, then
    letters from code 97. -/
def hexDigit (n : Nat) : Char :=
  Char.ofNat (if n < 10 then 48 + n else 87 + n)

/-- Eight lowercase hex characters of a 32-bit word. -/
def wordHex (w : Nat) : String :=
  String.mk ((List.range 8).map (fun i => hexDigit ((w >>> (28 - 4 * i)) &&& 15)))

/-- SHA-256 digest rendered as 64 lowercase hex characters, as `hex::encode`
    renders the `sha2` output in `generate_cache_key`. -/
def sha256Hex (msg : List Nat) : String :=
  String.join ((sha256 msg).map wordHex)

/-- UTF-8 encoding of one scalar value, the byte view Rust strings expose. -/
def utf8Bytes (c : Char) : List Nat :=
  let n := c.toNat
  if n < 0x80 then [n]
  else if n < 0x800 then [0xC0 ||| (n >>> 6), 0x80 ||| (n &&& 0x3F)]
  else if n < 0x10000 then
    [0xE0 ||| (n >>> 12), 0x80 ||| ((n >>> 6) &&& 0x3F), 0x80 ||| (n &&& 0x3F)]
  else
    [0xF0 ||| (n >>> 18), 0x80 ||| ((n >>> 12) &&& 0x3F),
     0x80 ||| ((n >>> 6) &&& 0x3F), 0x80 ||| (n &&& 0x3F)]

/-- UTF-8 bytes of a string, matching `str::as_bytes`. -/
def strBytes (s : String) : List Nat := (s.data.map utf8Bytes).flatten

/-! ## Byte-order string comparison, the `Ord` used by `Vec<&String>::sort`
    in `generate_cache_key`. UTF-8 byte order coincides with scalar-value
    order, so it is modelled on the character list. -/

/-- Lexicographic order on character lists by scalar value; models Rust's
    byte-lexicographic `str` ordering. -/
def charListLe : List Char → List Char → Bool
  | [], _ => true
  | _ :: _, [] => false
  | x :: xs, y :: ys =>
    if x.toNat < y.toNat then true
    else if x.toNat = y.toNat then charListLe xs ys
    else false

/-- String comparison used when sorting extra-parameter keys. -/
def strLe (a b : String) : Bool := charListLe a.data b.data

/-! ## Canonical JSON rendering (`serde_json::to_string` on `Value`), used
    for extra-parameter values in `generate_cache_key`.  `serde_json`'s
    default map is ordered, so object fields are carried as an association
    list in that order; numbers appearing in cacheable extra parameters are
    modelled as integers. -/

/-- JSON values, the shape of `serde_json::Value` relevant to cache keys. -/
inductive JsonValue where
  | null
  | bool (b : Bool)
  | num (n : Int)
  | str (s : String)
  | arr (xs : List JsonValue)
  | obj (fields : List (String × JsonValue))

/-- Escaping of one character inside a JSON string literal, as
    `serde_json` emits it. -/
def jsonEscapeChar (c : Char) : List Char :=
  if c = '"' then ['\\', '"']
  else if c = '\\' then ['\\', '\\']
  else if c = '\n' then ['\\', 'n']
  else if c = '\r' then ['\\', 'r']
  else if c = '\t' then ['\\', 't']
  else if c.toNat < 0x20 then
    ['\\', 'u', '0', '0', hexDigit (c.toNat / 16), hexDigit (c.toNat % 16)]
  else [c]

/-- Escape a full string for JSON output. -/
def jsonEscape (s : String) : String := String.mk ((s.data.map jsonEscapeChar).flatten)

mutual

/-- Serialize a JSON value to its canonical string, as
    `serde_json::to_string` does in `generate_cache_key`. -/
def jsonToString : JsonValue → String
  | .null => "null"
  | .bool true => "true"
  | .bool false => "false"
  | .num n => toString n
  | .str s => "\"" ++ jsonEscape s ++ "\""
  | .arr xs => "[" ++ jsonItems xs ++ "]"
  | .obj fs => "\x7b" ++ jsonFields fs ++ "\x7d"

/-- Comma-separated serialization of array elements. -/
def jsonItems : List JsonValue → String
  | [] => ""
  | [x] => jsonToString x
  | x :: y :: xs => jsonToString x ++ "," ++ jsonItems (y :: xs)

/-- Comma-separated serialization of object fields. -/
def jsonFields : List (String × JsonValue) → String
  | [] => ""
  | [(k, v)] => "\"" ++ jsonEscape k ++ "\":" ++ jsonToString v
  | (k, v) :: f :: fs =>
    "\"" ++ jsonEscape k ++ "\":" ++ jsonToString v ++ "," ++ jsonFields (f :: fs)

end

/-! ## Cache fingerprinting — crates/llm-edge-cache/src/key.rs -/

/-- A cacheable LLM request (`CacheableRequest`, key.rs lines 11-23).
    `temperature` is the request's f32, modelled as a rational; the
    `HashMap` of extra parameters is carried as an association list whose
    order is the (arbitrary) map iteration order, with unique keys. -/
structure CacheableRequest where
  model : String
  prompt : String
  temperature : Option Rat
  max_tokens : Option Nat
  parameters : List (String × JsonValue)

/-- Two-digit zero-padded rendering of a value below 100. -/
def pad2 (n : Nat) : String := if n < 10 then "0" ++ toString n else toString n

/-- The `format "precision 2 float"` rendering of the temperature
    (key.rs line 81): round to hundredths and print with two decimals.
    Rounding is half-up on the rational model; the claims consumed here
    depend only on this being a function of the value. -/
def fmt2 (q : Rat) : String :=
  let c : Int := ⌊q * 100 + 1 / 2⌋
  let n := c.natAbs
  (if c < 0 then "-" else "") ++ toString (n / 100) ++ "." ++ pad2 (n % 100)

/-- Sort the extra-parameter keys (`param_keys.sort()`, key.rs line 93).
    Rust's `sort` is a stable sort; stable sorting is a unique function of
    the input, so it is embedded as insertion sort. -/
def sortStrings (ks : List String) : List String :=
  List.insertionSort (fun a b => strLe a b = true) ks

/-- The sorted-parameter section of the hashed encoding
    (key.rs lines 91-104): for each sorted key present in the map, feed
    `key = json ;` to the hasher. -/
def encodeParams (ps : List (String × JsonValue)) : String :=
  (sortStrings (ps.map Prod.fst)).foldl (fun acc k =>
    match ps.lookup k with
    | some v => acc ++ k ++ "=" ++ jsonToString v ++ ";"
    | none => acc) ""

/-- The full byte stream fed to the SHA-256 hasher by `generate_cache_key`
    (key.rs lines 68-104): model, prompt, optional temperature, optional
    max_tokens, each followed by a pipe, then the sorted parameters. -/
def encodeRequest (r : CacheableRequest) : String :=
  r.model ++ "|" ++ r.prompt ++ "|" ++
  (match r.temperature with | some t => fmt2 t | none => "") ++ "|" ++
  (match r.max_tokens with | some m => toString m | none => "") ++ "|" ++
  encodeParams r.parameters

/-- Generate a cache key from a request using SHA-256
    (key.rs lines 68-109): hex-encoded digest of the canonical encoding. -/
def generate_cache_key (r : CacheableRequest) : String :=
  sha256Hex (strBytes (encodeRequest r))

/-- Short key for logging (key.rs lines 113-116): first 16 characters. -/
def generate_short_key (r : CacheableRequest) : String :=
  String.mk ((generate_cache_key r).data.take 16)

/-! ## Cached responses and the two-tier cache orchestrator —
    crates/llm-edge-cache/src/l1.rs, l2.rs and src/cache/mod.rs.
    L1 is a bounded in-process map; its get/set view is embedded as an
    association list with replace-on-insert (capacity eviction and
    TTL/TTI expiry are outside this model).  L2 is a remote store whose
    per-lookup behaviour is a function from key to outcome. -/

/-- Token usage attached to a cached response (l1.rs lines 47-52). -/
structure TokenUsage where
  prompt_tokens : Nat
  completion_tokens : Nat
  total_tokens : Nat
deriving DecidableEq

/-- The stored cache artifact `CachedResponse` (l1.rs lines 35-45). -/
structure CachedResponse where
  content : String
  tokens : Option TokenUsage
  model : String
  cached_at : Int
deriving DecidableEq

/-- L2 cache error kinds (l2.rs lines 14-27); `timeout` is produced when
    the operation deadline elapses (l2.rs lines 127-132). -/
inductive L2Error where
  | connection
  | serialization
  | timeout
  | unavailable
deriving DecidableEq

/-- Replace-on-insert for the L1 map view (`L1Cache::set`). -/
def l1_set (key : String) (v : CachedResponse) (l1 : List (String × CachedResponse)) :
    List (String × CachedResponse) :=
  (key, v) :: l1.filter (fun p => p.1 != key)

/-- The observable state of a `CacheManager` (src/cache/mod.rs lines
    70-74): the L1 map contents and, when configured, the L2 store's
    response to a `get` of each key — `Ok(Some)/Ok(None)/Err` covering
    hit, miss, and error-or-timeout. -/
structure CacheState where
  l1 : List (String × CachedResponse)
  l2 : Option (String → Except L2Error (Option CachedResponse))

/-- Result of a cache lookup (`CacheLookupResult`, src/cache/mod.rs
    lines 43-51). -/
inductive CacheLookupResult where
  | L1Hit (r : CachedResponse)
  | L2Hit (r : CachedResponse)
  | Miss
deriving DecidableEq

/-- `CacheManager::lookup` (src/cache/mod.rs lines 109-145): compute the
    fingerprint, try L1, then L2 when configured; an L2 hit is returned as
    `L2Hit` (its L1 promotion is a spawned fire-and-forget task and does
    not affect this call); an L2 miss, error or timeout falls through to
    `Miss`. -/
def CacheManager.lookup (st : CacheState) (request : CacheableRequest) : CacheLookupResult :=
  let cache_key := generate_cache_key request
  match st.l1.lookup cache_key with
  | some response => .L1Hit response
  | none =>
    match st.l2 with
    | none => .Miss
    | some l2 =>
      match l2 cache_key with
      | .ok (some response) => .L2Hit response
      | .ok none => .Miss
      | .error _ => .Miss

/-- `CacheManager::store` (src/cache/mod.rs lines 154-172): write L1
    synchronously, then spawn the L2 write.  Returns the state after the
    synchronous part together with the spawned L2 write, which completes
    in the background. -/
def CacheManager.store (st : CacheState) (request : CacheableRequest)
    (response : CachedResponse) : CacheState × Option (String × CachedResponse) :=
  let cache_key := generate_cache_key request
  ({ st with l1 := l1_set cache_key response st.l1 },
   if st.l2.isSome then some (cache_key, response) else none)

/-- `CacheManager::invalidate` (src/cache/mod.rs lines 204-216): remove
    from L1; the L2 removal is issued and its failure is non-fatal. -/
def CacheManager.invalidate (st : CacheState) (request : CacheableRequest) : CacheState :=
  let cache_key := generate_cache_key request
  { st with l1 := st.l1.filter (fun p => p.1 != cache_key) }

/-! ## The request pipeline — crates/llm-edge-agent/src/proxy.rs.
    Values the handler obtains from its surroundings (the selected
    provider, the provider call's outcome, the generated request id, the
    clock and the computed cost) are inputs of the embedding; the
    handler's observable effects (its HTTP result, whether the provider
    was invoked, whether the cache store was spawned) are its output. -/

/-- A chat message (proxy.rs lines 43-47). -/
structure ChatMessage where
  role : String
  content : String
deriving DecidableEq

/-- OpenAI-compatible chat completion request (proxy.rs lines 31-41). -/
structure ChatCompletionRequest where
  model : String
  messages : List ChatMessage
  temperature : Option Rat
  max_tokens : Option Nat
  stream : Bool

/-- Proxy error taxonomy (proxy.rs lines 86-92). -/
inductive ProxyError where
  | CacheError (msg : String)
  | ProviderError (msg : String)
  | ValidationError (msg : String)
  | InternalError (msg : String)
deriving DecidableEq

/-- Provider-side message (llm-edge-providers/src/types.rs lines 21-24). -/
structure UMessage where
  role : String
  content : String
deriving DecidableEq

/-- Provider-side choice (types.rs lines 38-42). -/
structure UChoice where
  index : Nat
  message : UMessage
  finish_reason : Option String
deriving DecidableEq

/-- Provider-side usage (types.rs lines 46-50). -/
structure UUsage where
  prompt_tokens : Nat
  completion_tokens : Nat
  total_tokens : Nat
deriving DecidableEq

/-- Unified provider response (types.rs lines 28-34). -/
structure UnifiedResponse where
  id : String
  model : String
  choices : List UChoice
  usage : UUsage
deriving DecidableEq

/-- Response metadata (proxy.rs lines 76-83). -/
structure ResponseMetadata where
  provider : String
  cached : Bool
  cache_tier : Option String
  latency_ms : Nat
  cost_usd : Option Rat
deriving DecidableEq

/-- Chat choice of the proxy response (proxy.rs lines 62-67). -/
structure ChatChoice where
  index : Nat
  message : ChatMessage
  finish_reason : String
deriving DecidableEq

/-- Usage block of the proxy response (proxy.rs lines 69-74). -/
structure Usage where
  prompt_tokens : Nat
  completion_tokens : Nat
  total_tokens : Nat
deriving DecidableEq

/-- OpenAI-compatible chat completion response (proxy.rs lines 50-60). -/
structure ChatCompletionResponse where
  id : String
  object : String
  created : Int
  model : String
  choices : List ChatChoice
  usage : Usage
  metadata : Option ResponseMetadata
deriving DecidableEq

/-- `validate_request` (proxy.rs lines 255-269): empty model, empty
    message list, or requested streaming are validation errors. -/
def validate_request (request : ChatCompletionRequest) : Option ProxyError :=
  if request.model == "" then some (.ValidationError ("Model is required"))
  else if request.messages.isEmpty then some (.ValidationError ("Messages cannot be empty"))
  else if request.stream then some (.ValidationError ("Streaming is not yet supported"))
  else none

/-- `convert_to_cacheable` (proxy.rs lines 272-292): concatenate
    `role: content` lines joined by newlines; temperature and max_tokens
    carry over; no extra parameters are set. -/
def convert_to_cacheable (request : ChatCompletionRequest) : CacheableRequest :=
  { model := request.model,
    prompt := String.intercalate "\n"
      (request.messages.map (fun m => m.role ++ ": " ++ m.content)),
    temperature := request.temperature,
    max_tokens := request.max_tokens,
    parameters := [] }

/-- `build_response_from_cache` (proxy.rs lines 365-397): envelope built
    from the cached value, marked cached with the hit tier, provider
    "cache" and zero cost. -/
def build_response_from_cache (request : ChatCompletionRequest) (cached : CachedResponse)
    (cache_tier : String) (uuid : String) (now : Int) (latency_ms : Nat) :
    ChatCompletionResponse :=
  { id := "chatcmpl-" ++ uuid,
    object := "chat.completion",
    created := now,
    model := request.model,
    choices := [{ index := 0,
                  message := { role := "assistant", content := cached.content },
                  finish_reason := "stop" }],
    usage := { prompt_tokens := ((cached.tokens.map TokenUsage.prompt_tokens).getD 0),
               completion_tokens := ((cached.tokens.map TokenUsage.completion_tokens).getD 0),
               total_tokens := ((cached.tokens.map TokenUsage.total_tokens).getD 0) },
    metadata := some { provider := "cache", cached := true, cache_tier := some cache_tier,
                       latency_ms := latency_ms, cost_usd := some 0 } }

/-- `convert_provider_to_cache` (proxy.rs lines 400-417): first choice's
    content, usage and model, stamped with the current time. -/
def convert_provider_to_cache (response : UnifiedResponse) (now : Int) : CachedResponse :=
  { content := ((response.choices.head?.map (fun c => c.message.content)).getD ""),
    tokens := some { prompt_tokens := response.usage.prompt_tokens,
                     completion_tokens := response.usage.completion_tokens,
                     total_tokens := response.usage.total_tokens },
    model := response.model,
    cached_at := now }

/-- `build_response_from_provider` (proxy.rs lines 420-457). -/
def build_response_from_provider (request : ChatCompletionRequest)
    (provider_response : UnifiedResponse) (provider_name : String)
    (latency_ms : Nat) (cost_usd : Option Rat) (now : Int) : ChatCompletionResponse :=
  { id := provider_response.id,
    object := "chat.completion",
    created := now,
    model := request.model,
    choices := provider_response.choices.map (fun c =>
      { index := c.index,
        message := { role := c.message.role, content := c.message.content },
        finish_reason := c.finish_reason.getD "stop" }),
    usage := { prompt_tokens := provider_response.usage.prompt_tokens,
               completion_tokens := provider_response.usage.completion_tokens,
               total_tokens := provider_response.usage.total_tokens },
    metadata := some { provider := provider_name, cached := false, cache_tier := none,
                       latency_ms := latency_ms, cost_usd := cost_usd } }

/-- Inputs the handler obtains from its environment during one request:
    the provider chosen by `select_provider` (none when no provider is
    configured), the outcome of `provider.send`, the generated request id,
    the clock reading, the computed cost and the measured latency. -/
structure PipelineEnv where
  selected_provider : Option String
  provider_result : Except String UnifiedResponse
  uuid : String
  now : Int
  cost_usd : Option Rat
  latency_ms : Nat

/-- Observable outcome of one `handle_chat_completions` run: the returned
    result, whether a provider was invoked, and whether the cache store
    was spawned (step 9). -/
structure PipelineTrace where
  result : Except ProxyError ChatCompletionResponse
  provider_called : Bool
  store_called : Bool

/-- `handle_chat_completions` (proxy.rs lines 123-252): validate, derive
    the cacheable request, look up the cache and return on either hit
    tier; on a miss select a provider, call it, and on success spawn the
    cache store and build the provider envelope, while any provider error
    is mapped to `ProviderError` with no cache write. -/
def handle_chat_completions (env : PipelineEnv) (st : CacheState)
    (request : ChatCompletionRequest) : PipelineTrace :=
  match validate_request request with
  | some e => { result := .error e, provider_called := false, store_called := false }
  | none =>
    let cacheable_req := convert_to_cacheable request
    match CacheManager.lookup st cacheable_req with
    | .L1Hit cached =>
      { result := .ok (build_response_from_cache request cached ("l1")
          env.uuid env.now env.latency_ms),
        provider_called := false, store_called := false }
    | .L2Hit cached =>
      { result := .ok (build_response_from_cache request cached ("l2")
          env.uuid env.now env.latency_ms),
        provider_called := false, store_called := false }
    | .Miss =>
      match env.selected_provider with
      | none =>
        { result := .error (.InternalError ("No providers configured")),
          provider_called := false, store_called := false }
      | some provider_name =>
        match env.provider_result with
        | .error e =>
          { result := .error (.ProviderError ("Provider error: " ++ e)),
            provider_called := true, store_called := false }
        | .ok provider_response =>
          { result := .ok (build_response_from_provider request provider_response
              provider_name env.latency_ms env.cost_usd env.now),
            provider_called := true, store_called := true }

/-! ## Circuit breaker — crates/llm-edge-routing/src/circuit_breaker.rs,
    with the call gating of `LLMCircuitBreaker::call`
    (src/routing/circuit_breaker.rs lines 89-103).  Instants are Nat
    clock readings; `Instant::elapsed` is `now - t`. -/

/-- Circuit states (circuit_breaker.rs lines 9-14). -/
inductive CircuitState where
  | Closed
  | Open
  | HalfOpen
deriving DecidableEq

/-- The breaker's counters and configuration (circuit_breaker.rs lines
    16-33). -/
structure CircuitBreaker where
  failure_count : Nat
  success_count : Nat
  threshold : Nat
  timeout : Nat
  last_failure_time : Option Nat
deriving DecidableEq

/-- `CircuitBreaker::new` (circuit_breaker.rs lines 25-33). -/
def CircuitBreaker.new (threshold timeout : Nat) : CircuitBreaker :=
  { failure_count := 0, success_count := 0, threshold := threshold,
    timeout := timeout, last_failure_time := none }

/-- `CircuitBreaker::state` (circuit_breaker.rs lines 35-51): below the
    threshold the circuit is Closed; at or above it, it is HalfOpen once
    more than `timeout` has elapsed since the last failure, else Open. -/
def CircuitBreaker.state (cb : CircuitBreaker) (now : Nat) : CircuitState :=
  if cb.failure_count < cb.threshold then .Closed
  else
    match cb.last_failure_time with
    | some t => if now - t > cb.timeout then .HalfOpen else .Open
    | none => .Open

/-- `CircuitBreaker::record_success` (circuit_breaker.rs lines 53-61):
    bump the success counter and, on reaching 3, reset both counters. -/
def CircuitBreaker.record_success (cb : CircuitBreaker) : CircuitBreaker :=
  let s := cb.success_count + 1
  if 3 ≤ s then { cb with failure_count := 0, success_count := 0 }
  else { cb with success_count := s }

/-- `CircuitBreaker::record_failure` (circuit_breaker.rs lines 63-67). -/
def CircuitBreaker.record_failure (cb : CircuitBreaker) (now : Nat) : CircuitBreaker :=
  { cb with failure_count := cb.failure_count + 1, success_count := 0,
            last_failure_time := some now }

/-- A sequence of `record_failure` calls at the given instants. -/
def applyFailures (cb : CircuitBreaker) (ts : List Nat) : CircuitBreaker :=
  ts.foldl CircuitBreaker.record_failure cb

/-- Circuit breaker error kinds (src/routing/circuit_breaker.rs lines
    23-33). -/
inductive CircuitBreakerError where
  | Open (provider : String)
  | RequestFailed (msg : String)
  | Timeout (msg : String)
deriving DecidableEq

/-- `LLMCircuitBreaker::call` (src/routing/circuit_breaker.rs lines
    89-138): when the circuit is open the call is rejected up front with
    `Open` and the provider closure is never run; otherwise the closure
    runs and a failure surfaces as `RequestFailed`.  The Bool records
    whether the provider was invoked. -/
def LLMCircuitBreaker.call {α : Type} (cb : CircuitBreaker) (now : Nat)
    (provider_name : String) (outcome : Except String α) :
    Bool × Except CircuitBreakerError α :=
  if cb.state now = .Open then (false, .error (.Open provider_name))
  else
    match outcome with
    | .ok v => (true, .ok v)
    | .error e => (true, .error (.RequestFailed e))

/-! ## Provider health tracking — src/routing/mod.rs. -/

/-- `ProviderHealth` (src/routing/mod.rs lines 44-52); latencies in
    milliseconds as rationals, instants as Nat milliseconds. -/
structure ProviderHealth where
  total_requests : Nat
  successful_requests : Nat
  failed_requests : Nat
  avg_latency_ms : Rat
  last_success : Option Nat
  last_failure : Option Nat
deriving DecidableEq

/-- `ProviderHealth::default` (src/routing/mod.rs lines 54-65). -/
def ProviderHealth.init : ProviderHealth :=
  { total_requests := 0, successful_requests := 0, failed_requests := 0,
    avg_latency_ms := 0, last_success := none, last_failure := none }

/-- `ProviderHealth::success_rate` (src/routing/mod.rs lines 69-75). -/
def ProviderHealth.success_rate (h : ProviderHealth) : Rat :=
  if h.total_requests = 0 then 1
  else (h.successful_requests : Rat) / (h.total_requests : Rat)

/-- `ProviderHealth::is_healthy` (src/routing/mod.rs lines 78-98): no
    requests yet, or success rate at least 0.8, or a success within the
    last 5 minutes (300000 ms). -/
def ProviderHealth.is_healthy (h : ProviderHealth) (now : Nat) : Bool :=
  (h.total_requests == 0) ||
  decide ((8 : Rat) / 10 ≤ h.success_rate) ||
  (match h.last_success with
   | some t => decide (now - t < 300000)
   | none => false)

/-- `RoutingEngine::record_success` (src/routing/mod.rs lines 343-359):
    bump total and success counters, stamp the success instant, and
    update the EMA latency with alpha 0.3 — except that the first
    observation (EMA still 0) is stored directly. -/
def RoutingEngine.record_success (h : ProviderHealth) (now : Nat)
    (latency_ms : Nat) : ProviderHealth :=
  let alpha : Rat := 3 / 10
  let h1 := { h with total_requests := h.total_requests + 1,
                     successful_requests := h.successful_requests + 1,
                     last_success := some now }
  if h.avg_latency_ms = 0 then { h1 with avg_latency_ms := (latency_ms : Rat) }
  else { h1 with avg_latency_ms :=
           alpha * (latency_ms : Rat) + (1 - alpha) * h.avg_latency_ms }

/-- `RoutingEngine::record_failure` (src/routing/mod.rs lines 362-369):
    bump total and failure counters and stamp the failure instant; the
    latency argument is accepted but unused, and the EMA latency is left
    untouched. -/
def RoutingEngine.record_failure (h : ProviderHealth) (now : Nat)
    (_latency_ms : Nat) : ProviderHealth :=
  { h with total_requests := h.total_requests + 1,
           failed_requests := h.failed_requests + 1,
           last_failure := some now }

/-! ## Routing strategies — src/routing/strategies.rs. -/

/-- Provider descriptor (strategies.rs lines 17-39). -/
structure Provider where
  id : String
  name : String
  endpoint : String
  priority : Nat
  cost_per_1k_tokens : Rat
  max_tokens : Nat
  enabled : Bool
deriving DecidableEq

/-- Provider with runtime health view (strategies.rs lines 42-48). -/
structure ProviderWithHealth where
  provider : Provider
  is_healthy : Bool
  avg_latency_ms : Rat
  success_rate : Rat
deriving DecidableEq

/-- `FailoverChainStrategy::select_provider` (strategies.rs lines
    163-188): keep the enabled healthy providers, sort them by priority
    with Rust's stable `sort_by_key` — embedded as insertion sort, which
    computes the same unique stable sort — and return the first, or none
    when no provider remains. -/
def FailoverChainStrategy.select_provider (providers : List ProviderWithHealth) :
    Option Provider :=
  let sorted := List.insertionSort
    (fun a b => a.provider.priority ≤ b.provider.priority)
    (providers.filter (fun p => p.provider.enabled && p.is_healthy))
  sorted.head?.map ProviderWithHealth.provider

/-- The health view `RoutingEngine::select_provider` builds for one
    provider (src/routing/mod.rs lines 279-299): healthy iff the health
    tracker says so and the circuit breaker is not open. -/
def RoutingEngine.provider_with_health (now : Nat) (p : Provider)
    (h : ProviderHealth) (circuit_open : Bool) : ProviderWithHealth :=
  { provider := p,
    is_healthy := h.is_healthy now && !circuit_open,
    avg_latency_ms := h.avg_latency_ms,
    success_rate := h.success_rate }

/-- `RoutingEngine::select_provider` under the failover-chain strategy
    (src/routing/mod.rs lines 273-305): build the health view of every
    configured provider, then run the strategy.  Each entry carries the
    provider, its tracked health, and whether its circuit is open. -/
def RoutingEngine.select_provider_failover (now : Nat)
    (entries : List (Provider × ProviderHealth × Bool)) : Option Provider :=
  FailoverChainStrategy.select_provider
    (entries.map (fun e => RoutingEngine.provider_with_health now e.1 e.2.1 e.2.2))

/-- First element of a list attaining the minimal key, preferring the
    earlier element on ties. -/
def firstMinKey {α : Type} (key : α → Nat) : List α → Option α
  | [] => none
  | x :: xs =>
    match firstMinKey key xs with
    | none => some x
    | some q => if key x ≤ key q then some x else some q

/-- Modelled from the spec: "`FailoverChain` picks the provider with the
    smallest `priority` value whose circuit is not Open", with "ties
    broken by insertion order" — the comparison definition for the C9
    refinement. -/
def specFailoverPick (entries : List (Provider × ProviderHealth × Bool)) : Option Provider :=
  firstMinKey Provider.priority ((entries.filter (fun e => !e.2.2)).map (fun e => e.1))

/-! ## Retry with exponential backoff — src/routing/strategies.rs lines
    370-406 and the `RoutingEngine::route` loop (src/routing/mod.rs lines
    194-270). -/

/-- `RetryConfig` (strategies.rs lines 371-395); durations in
    milliseconds, the multiplier an f64 modelled as a rational. -/
structure RetryConfig where
  max_retries : Nat
  initial_backoff : Nat
  max_backoff : Nat
  backoff_multiplier : Rat
deriving DecidableEq

/-- `RetryConfig::default` (strategies.rs lines 386-395). -/
def RetryConfig.standard : RetryConfig :=
  { max_retries := 3, initial_backoff := 100, max_backoff := 10000,
    backoff_multiplier := 2 }

/-- `RetryConfig::backoff_duration` (strategies.rs lines 397-406):
    initial times multiplier to the attempt, truncated to whole
    milliseconds as the `as u64` cast does, capped at `max_backoff`. -/
def RetryConfig.backoff_duration (c : RetryConfig) (attempt : Nat) : Nat :=
  let backoff_ms : Rat := (c.initial_backoff : Rat) * c.backoff_multiplier ^ attempt
  min (Int.toNat ⌊backoff_ms⌋) c.max_backoff

/-- Observable effects of one `RoutingEngine::route` run: how many times
    a provider was invoked, the backoff sleeps performed between
    attempts, and whether the loop ended in success. -/
structure RouteTrace where
  invocations : Nat
  sleeps_ms : List Nat
  succeeded : Bool
deriving DecidableEq

/-- The `while attempt < max_retries` body of `RoutingEngine::route`
    (src/routing/mod.rs lines 203-262), for runs in which provider
    selection succeeds on every iteration: invoke the provider for the
    current attempt; on success stop; on failure increment the attempt
    and, when attempts remain, sleep `backoff_duration (attempt - 1)`
    before looping.  `fuel` counts the remaining loop iterations and
    equals `max_retries - attempt` throughout. -/
def routeLoop (c : RetryConfig) (outcome : Nat → Bool) :
    Nat → Nat → Nat → List Nat → RouteTrace
  | 0, _, invs, sleeps => { invocations := invs, sleeps_ms := sleeps, succeeded := false }
  | fuel + 1, attempt, invs, sleeps =>
    if outcome attempt then
      { invocations := invs + 1, sleeps_ms := sleeps, succeeded := true }
    else
      let attempt2 := attempt + 1
      if attempt2 < c.max_retries then
        routeLoop c outcome fuel attempt2 (invs + 1)
          (sleeps ++ [c.backoff_duration (attempt2 - 1)])
      else { invocations := invs + 1, sleeps_ms := sleeps, succeeded := false }

/-- `RoutingEngine::route` (src/routing/mod.rs lines 194-270) as a trace
    of invocations and sleeps, driven by the per-attempt outcome. -/
def RoutingEngine.route_sim (c : RetryConfig) (outcome : Nat → Bool) : RouteTrace :=
  routeLoop c outcome c.max_retries 0 0 []

/-! ## Concrete instances used by witnesses below. -/

/-- A request whose extra parameters are inserted as a then b. -/
def reqParamsAB : CacheableRequest :=
  { model := "gpt-4", prompt := "Hello", temperature := none, max_tokens := none,
    parameters := [("a", JsonValue.num 1), ("b", JsonValue.num 2)] }

/-- The same request with the extra parameters inserted as b then a. -/
def reqParamsBA : CacheableRequest :=
  { model := "gpt-4", prompt := "Hello", temperature := none, max_tokens := none,
    parameters := [("b", JsonValue.num 2), ("a", JsonValue.num 1)] }

/-- A plain cacheable request. -/
def reqPing : CacheableRequest :=
  { model := "gpt-3.5-turbo", prompt := "ping", temperature := none, max_tokens := none,
    parameters := [] }

/-- A cache state with empty L1 and an L2 that times out on every get. -/
def stL2Err : CacheState :=
  { l1 := [], l2 := some (fun _ => Except.error L2Error.timeout) }

/-- A cache state with no entries and no L2. -/
def stEmpty : CacheState := { l1 := [], l2 := none }

/-- A valid chat completion request. -/
def reqChat : ChatCompletionRequest :=
  { model := "gpt-4", messages := [{ role := "user", content := "ping" }],
    temperature := none, max_tokens := none, stream := false }

/-- A cached response for the witness states. -/
def respCached : CachedResponse :=
  { content := "pong",
    tokens := some { prompt_tokens := 1, completion_tokens := 1, total_tokens := 2 },
    model := "gpt-4", cached_at := 0 }

/-- A cache state already holding the entry for `reqChat`. -/
def stWithEntry : CacheState :=
  { l1 := [(generate_cache_key (convert_to_cacheable reqChat), respCached)], l2 := none }

/-- Pipeline environment for the cache-hit witness. -/
def envHit : PipelineEnv :=
  { selected_provider := none, provider_result := Except.error "", uuid := "u",
    now := 0, cost_usd := none, latency_ms := 1 }

/-- Pipeline environment in which the selected provider fails. -/
def envFail : PipelineEnv :=
  { selected_provider := some "openai", provider_result := Except.error "boom",
    uuid := "u", now := 0, cost_usd := none, latency_ms := 1 }

/-- Provider descriptors for the failover witness. -/
def provA : Provider :=
  { id := "p1", name := "P1", endpoint := "e1", priority := 2,
    cost_per_1k_tokens := 2, max_tokens := 4096, enabled := true }

/-- Second provider, best priority but circuit open in the witness. -/
def provB : Provider :=
  { id := "p2", name := "P2", endpoint := "e2", priority := 1,
    cost_per_1k_tokens := 1, max_tokens := 4096, enabled := true }

/-- Third provider, tied priority with `provA` but inserted later. -/
def provC : Provider :=
  { id := "p3", name := "P3", endpoint := "e3", priority := 2,
    cost_per_1k_tokens := 3, max_tokens := 4096, enabled := true }

/-- Engine view for the failover witness: `provB` has the smallest
    priority but its circuit is open; `provA` and `provC` tie on
    priority, with `provA` first in insertion order. -/
def provEntries : List (Provider × ProviderHealth × Bool) :=
  [(provA, ProviderHealth.init, false), (provB, ProviderHealth.init, true),
   (provC, ProviderHealth.init, false)]

/-! ## Theorems.  First the order lemmas for the key sort. -/

theorem charListLe_total : ∀ (a b : List Char),
    charListLe a b = true ∨ charListLe b a = true := by
  intro a
  induction a with
  | nil => intro b; left; rfl
  | cons x xs ih =>
    intro b
    cases b with
    | nil => right; rfl
    | cons y ys =>
      simp only [charListLe]
      rcases Nat.lt_trichotomy x.toNat y.toNat with h | h | h
      · left; simp [h]
      · rcases ih ys with h2 | h2
        · left; simp [h, h2]
        · right; simp [h.symm, Nat.lt_irrefl, h2]
      · right; simp [h, Nat.lt_irrefl, Nat.ne_of_gt h]

theorem charListLe_trans : ∀ (a b c : List Char),
    charListLe a b = true → charListLe b c = true → charListLe a c = true := by
  intro a
  induction a with
  | nil => intro b c _ _; rfl
  | cons x xs ih =>
    intro b c hab hbc
    cases b with
    | nil => simp [charListLe] at hab
    | cons y ys =>
      cases c with
      | nil => simp [charListLe] at hbc
      | cons z zs =>
        simp only [charListLe] at hab hbc ⊢
        split_ifs at hab hbc ⊢ <;> first | rfl | omega | exact ih ys zs hab hbc

theorem charListLe_antisymm : ∀ (a b : List Char),
    charListLe a b = true → charListLe b a = true → a = b := by
  intro a
  induction a with
  | nil =>
    intro b hab hba
    cases b with
    | nil => rfl
    | cons y ys => simp [charListLe] at hba
  | cons x xs ih =>
    intro b hab hba
    cases b with
    | nil => simp [charListLe] at hab
    | cons y ys =>
      simp only [charListLe] at hab hba
      split_ifs at hab hba <;> try omega
      next h1 h2 h3 h4 =>
        have hxy : x = y := by
          have h5 := congrArg Char.ofNat h2
          rwa [Char.ofNat_toNat, Char.ofNat_toNat] at h5
        rw [hxy, ih ys hab hba]

theorem sortStrings_perm_eq {l₁ l₂ : List String} (h : l₁.Perm l₂) :
    sortStrings l₁ = sortStrings l₂ := by
  haveI : IsTotal String (fun a b => strLe a b = true) :=
    ⟨fun a b => charListLe_total a.data b.data⟩
  haveI : IsTrans String (fun a b => strLe a b = true) :=
    ⟨fun a b c => charListLe_trans a.data b.data c.data⟩
  haveI : IsAntisymm String (fun a b => strLe a b = true) :=
    ⟨fun a b h1 h2 => String.ext (charListLe_antisymm a.data b.data h1 h2)⟩
  exact List.eq_of_perm_of_sorted
    ((List.perm_insertionSort _ _).trans (h.trans (List.perm_insertionSort _ _).symm))
    (List.sorted_insertionSort _ _) (List.sorted_insertionSort _ _)

theorem lookup_eq_of_perm {α β : Type} [BEq α] [LawfulBEq α] :
    ∀ {l₁ l₂ : List (α × β)}, l₁.Perm l₂ → (l₁.map Prod.fst).Nodup →
      ∀ k, l₁.lookup k = l₂.lookup k := by
  intro l₁ l₂ h
  induction h with
  | nil => intro _ k; rfl
  | cons x h ih =>
    intro nd k
    obtain ⟨xk, xv⟩ := x
    simp only [List.map_cons, List.nodup_cons] at nd
    cases hbk : k == xk <;> simp [List.lookup_cons, hbk]
    exact ih nd.2 k
  | swap x y l =>
    intro nd k
    obtain ⟨xk, xv⟩ := x
    obtain ⟨yk, yv⟩ := y
    simp only [List.map_cons, List.nodup_cons, List.mem_cons] at nd
    have hne : yk ≠ xk := fun hcontra => nd.1 (Or.inl hcontra)
    cases hky : k == yk <;> cases hkx : k == xk <;>
      simp [List.lookup_cons, hky, hkx]
    exact absurd ((eq_of_beq hky).symm.trans (eq_of_beq hkx)) hne
  | trans h12 h23 ih12 ih23 =>
    intro nd k
    have nd2 := ((h12.map Prod.fst).nodup_iff).mp nd
    exact (ih12 nd k).trans (ih23 nd2 k)

theorem encodeParams_foldl_congr {ps₁ ps₂ : List (String × JsonValue)}
    (h : ∀ k, ps₁.lookup k = ps₂.lookup k) :
    ∀ (ks : List String) (acc : String),
      ks.foldl (fun acc k =>
        match ps₁.lookup k with
        | some v => acc ++ k ++ "=" ++ jsonToString v ++ ";"
        | none => acc) acc =
      ks.foldl (fun acc k =>
        match ps₂.lookup k with
        | some v => acc ++ k ++ "=" ++ jsonToString v ++ ";"
        | none => acc) acc := by
  intro ks
  induction ks with
  | nil => intro acc; rfl
  | cons k ks ih =>
    intro acc
    simp only [List.foldl]
    rw [h k]
    exact ih _

/-- C1 (algebraic/relational): any two value-equal `CacheableRequest`s —
    same model, prompt, temperature and max_tokens, and extra-parameter
    maps holding the same key-value pairs (in particular the same map
    inserted in a different order) — receive byte-identical fingerprints
    from `generate_cache_key`.  The association lists carry the map
    contents; unique keys reflect the `HashMap` invariant. -/
theorem generate_cache_key_value_equal (a b : CacheableRequest)
    (hm : a.model = b.model) (hp : a.prompt = b.prompt)
    (ht : a.temperature = b.temperature) (hx : a.max_tokens = b.max_tokens)
    (hnd : (a.parameters.map Prod.fst).Nodup)
    (hperm : a.parameters.Perm b.parameters) :
    generate_cache_key a = generate_cache_key b := by
  have hparams : encodeParams a.parameters = encodeParams b.parameters := by
    unfold encodeParams
    rw [sortStrings_perm_eq (hperm.map Prod.fst)]
    exact encodeParams_foldl_congr (lookup_eq_of_perm hperm hnd) _ _
  unfold generate_cache_key encodeRequest
  rw [hm, hp, ht, hx, hparams]

/-- Witness for C1 at the spec's S5 inputs: the parameter maps a=1,b=2
    and b=2,a=1 differ only in insertion order, and the fingerprints
    coincide. -/
theorem generate_cache_key_value_equal_witness :
    (reqParamsAB.parameters.map Prod.fst).Nodup ∧
    reqParamsAB.parameters.Perm reqParamsBA.parameters ∧
    generate_cache_key reqParamsAB = generate_cache_key reqParamsBA :=
  ⟨by decide, List.Perm.swap _ _ _,
   generate_cache_key_value_equal _ _ rfl rfl rfl rfl (by decide) (List.Perm.swap _ _ _)⟩

/-- C2 (algebraic/relational): `CacheManager::store` writes L1
    synchronously before returning, so a `lookup` of the same request
    performed afterwards in the same task finds the entry in L1 and
    returns `L1Hit` with the stored response.  (L1 capacity eviction and
    TTL expiry, which happen on other timescales, are outside the
    model.) -/
theorem store_then_lookup_l1_hit (st : CacheState) (req : CacheableRequest)
    (r : CachedResponse) :
    CacheManager.lookup (CacheManager.store st req r).1 req = .L1Hit r := by
  simp [CacheManager.lookup, CacheManager.store, l1_set, List.lookup_cons]

/-- C3 (error handling): when L1 misses and the configured L2 `get`
    returns an error — including the operation-timeout error — the
    orchestrator's lookup degrades to `Miss` instead of propagating the
    error to the caller. -/
theorem l2_error_lookup_miss (st : CacheState) (req : CacheableRequest)
    (l2f : String → Except L2Error (Option CachedResponse)) (e : L2Error)
    (h1 : st.l1.lookup (generate_cache_key req) = none)
    (h2 : st.l2 = some l2f)
    (h3 : l2f (generate_cache_key req) = .error e) :
    CacheManager.lookup st req = .Miss := by
  simp [CacheManager.lookup, h1, h2, h3]

/-- Witness for C3: an empty L1 together with an L2 that times out on
    every key yields `Miss`. -/
theorem l2_error_lookup_miss_witness :
    stL2Err.l1.lookup (generate_cache_key reqPing) = none ∧
    stL2Err.l2 = some (fun _ => Except.error L2Error.timeout) ∧
    CacheManager.lookup stL2Err reqPing = .Miss :=
  ⟨rfl, rfl, l2_error_lookup_miss stL2Err reqPing
    (fun _ => Except.error L2Error.timeout) L2Error.timeout rfl rfl rfl⟩

/-- C4 (temporal): when the cache lookup of a (valid) request hits either
    tier, the pipeline returns the envelope built from the cached value
    and never selects or invokes a provider; the trace records no
    provider call and no cache store. -/
theorem cache_hit_skips_provider (env : PipelineEnv) (st : CacheState)
    (request : ChatCompletionRequest) (cached : CachedResponse)
    (hv : validate_request request = none) :
    (CacheManager.lookup st (convert_to_cacheable request) = .L1Hit cached →
      handle_chat_completions env st request =
        { result := .ok (build_response_from_cache request cached ("l1")
            env.uuid env.now env.latency_ms),
          provider_called := false, store_called := false }) ∧
    (CacheManager.lookup st (convert_to_cacheable request) = .L2Hit cached →
      handle_chat_completions env st request =
        { result := .ok (build_response_from_cache request cached ("l2")
            env.uuid env.now env.latency_ms),
          provider_called := false, store_called := false }) := by
  constructor <;> intro h <;> simp [handle_chat_completions, hv, h]

/-- Witness for C4: a state holding the entry for the request yields an
    L1 hit, and the pipeline answers from it without a provider call. -/
theorem cache_hit_skips_provider_witness :
    validate_request reqChat = none ∧
    CacheManager.lookup stWithEntry (convert_to_cacheable reqChat) = .L1Hit respCached ∧
    handle_chat_completions envHit stWithEntry reqChat =
      { result := .ok (build_response_from_cache reqChat respCached ("l1")
          envHit.uuid envHit.now envHit.latency_ms),
        provider_called := false, store_called := false } := by
  refine ⟨by decide, ?_, ?_⟩
  · show CacheManager.lookup stWithEntry (convert_to_cacheable reqChat) = .L1Hit respCached
    simp [CacheManager.lookup, stWithEntry, List.lookup_cons]
  · exact (cache_hit_skips_provider envHit stWithEntry reqChat respCached (by decide)).1
      (by simp [CacheManager.lookup, stWithEntry, List.lookup_cons])

/-- C5 (error handling): on a cache miss the pipeline stores into the
    cache only after the provider call succeeds; on a provider failure it
    returns a `ProviderError` and spawns no cache write, so neither tier
    is written for that request. -/
theorem store_only_after_provider_success (env : PipelineEnv) (st : CacheState)
    (request : ChatCompletionRequest) (provider_name : String)
    (hv : validate_request request = none)
    (hm : CacheManager.lookup st (convert_to_cacheable request) = .Miss)
    (hp : env.selected_provider = some provider_name) :
    (∀ e, env.provider_result = .error e →
      handle_chat_completions env st request =
        { result := .error (.ProviderError ("Provider error: " ++ e)),
          provider_called := true, store_called := false }) ∧
    (∀ r, env.provider_result = .ok r →
      handle_chat_completions env st request =
        { result := .ok (build_response_from_provider request r provider_name
            env.latency_ms env.cost_usd env.now),
          provider_called := true, store_called := true }) := by
  constructor <;> intro v hv2 <;> simp [handle_chat_completions, hv, hm, hp, hv2]

/-- Witness for C5: with an empty cache the lookup misses, the selected
    provider fails, and the pipeline returns the provider error without
    writing the cache. -/
theorem store_only_after_provider_success_witness :
    validate_request reqChat = none ∧
    CacheManager.lookup stEmpty (convert_to_cacheable reqChat) = .Miss ∧
    envFail.selected_provider = some "openai" ∧
    envFail.provider_result = .error "boom" ∧
    handle_chat_completions envFail stEmpty reqChat =
      { result := .error (.ProviderError ("Provider error: boom")),
        provider_called := true, store_called := false } :=
  ⟨by decide, rfl, rfl, rfl,
   (store_only_after_provider_success envFail stEmpty reqChat ("openai")
     (by decide) rfl rfl).1 "boom" rfl⟩

theorem applyFailures_count : ∀ (ts : List Nat) (cb : CircuitBreaker),
    (applyFailures cb ts).failure_count = cb.failure_count + ts.length ∧
    (applyFailures cb ts).threshold = cb.threshold ∧
    (applyFailures cb ts).timeout = cb.timeout := by
  intro ts
  induction ts with
  | nil => intro cb; exact ⟨rfl, rfl, rfl⟩
  | cons t ts ih =>
    intro cb
    have h := ih (cb.record_failure t)
    simp only [applyFailures, List.foldl] at h ⊢
    refine ⟨?_, h.2⟩
    rw [h.1]
    simp [CircuitBreaker.record_failure]
    omega

theorem applyFailures_last : ∀ (ts : List Nat) (cb : CircuitBreaker) (t : Nat),
    ts.getLast? = some t → (applyFailures cb ts).last_failure_time = some t := by
  intro ts
  induction ts with
  | nil => intro cb t h; simp at h
  | cons u ts ih =>
    intro cb t h
    cases ts with
    | nil =>
      simp at h
      subst h
      rfl
    | cons v ts2 =>
      rw [List.getLast?_cons_cons] at h
      exact ih (cb.record_failure u) t h

/-- C6 (invariants): starting from a fresh breaker, after exactly
    `failure_threshold` consecutive `record_failure` calls (at any
    instants, with no intervening success) the state is Open, and while
    Open — that is, until more than `open_duration` has elapsed since the
    last failure — a call through the breaker is rejected immediately
    with the `Open` error and the provider closure is never invoked.
    After any proper prefix of those failures the circuit is still
    Closed, so the threshold is exact. -/
theorem circuit_opens_after_threshold_failures {α : Type} (thr tmo now : Nat)
    (ts : List Nat) (t_last : Nat) (provider_name : String)
    (outcome : Except String α)
    (_hthr : 0 < thr) (hlen : ts.length = thr)
    (hlast : ts.getLast? = some t_last) (hwin : now - t_last ≤ tmo) :
    (applyFailures (CircuitBreaker.new thr tmo) ts).state now = .Open ∧
    LLMCircuitBreaker.call (applyFailures (CircuitBreaker.new thr tmo) ts) now
      provider_name outcome = (false, .error (.Open provider_name)) ∧
    ∀ k, k < thr → ∀ now2,
      (applyFailures (CircuitBreaker.new thr tmo) (ts.take k)).state now2 = .Closed := by
  have hc := applyFailures_count ts (CircuitBreaker.new thr tmo)
  have hl := applyFailures_last ts (CircuitBreaker.new thr tmo) t_last hlast
  have hfc : (applyFailures (CircuitBreaker.new thr tmo) ts).failure_count = thr := by
    rw [hc.1]; simp [CircuitBreaker.new, hlen]
  have hth : (applyFailures (CircuitBreaker.new thr tmo) ts).threshold = thr := by
    rw [hc.2.1]; rfl
  have hto : (applyFailures (CircuitBreaker.new thr tmo) ts).timeout = tmo := by
    rw [hc.2.2]; rfl
  have hstate : (applyFailures (CircuitBreaker.new thr tmo) ts).state now = .Open := by
    rw [CircuitBreaker.state, hfc, hth, hto, hl]
    rw [if_neg (Nat.lt_irrefl thr)]
    simp only
    rw [if_neg (by omega)]
  refine ⟨hstate, ?_, ?_⟩
  · rw [LLMCircuitBreaker.call.eq_def, if_pos hstate]
  · intro k hk now2
    have hck := applyFailures_count (ts.take k) (CircuitBreaker.new thr tmo)
    have hfk : (applyFailures (CircuitBreaker.new thr tmo) (ts.take k)).failure_count = k := by
      rw [hck.1]
      simp [CircuitBreaker.new, List.length_take, hlen]
      omega
    rw [CircuitBreaker.state, hfk, hck.2.1]
    rw [if_pos (by simpa [CircuitBreaker.new] using hk)]

/-- Witness for C6: threshold 5, five failures at instants 0..4, clock at
    20 (16 elapsed, inside the 30 window): the circuit is Open and the
    call is rejected unexecuted. -/
theorem circuit_opens_after_threshold_failures_witness :
    (0 : Nat) < 5 ∧ ([0, 1, 2, 3, 4] : List Nat).length = 5 ∧
    ([0, 1, 2, 3, 4] : List Nat).getLast? = some 4 ∧ (20 : Nat) - 4 ≤ 30 ∧
    (applyFailures (CircuitBreaker.new 5 30) [0, 1, 2, 3, 4]).state 20 = .Open ∧
    LLMCircuitBreaker.call (applyFailures (CircuitBreaker.new 5 30) [0, 1, 2, 3, 4]) 20
      ("p1") (Except.ok ("ok")) = (false, .error (.Open ("p1"))) :=
  ⟨by decide, by decide, by decide, by decide,
   (circuit_opens_after_threshold_failures 5 30 20 [0, 1, 2, 3, 4] 4 ("p1")
     (Except.ok ("ok")) (by decide) (by decide) (by decide) (by decide)).1,
   (circuit_opens_after_threshold_failures 5 30 20 [0, 1, 2, 3, 4] 4 ("p1")
     (Except.ok ("ok")) (by decide) (by decide) (by decide) (by decide)).2.1⟩

/-- Counterexample to C7 as stated: with the default configuration
    (failure threshold 5, open duration 30, configured half_open_success
    2) drive the breaker to HalfOpen (five failures at instant 0, clock
    31) and record 2 consecutive successes: the rolling failure counter
    is still 5 and the state is not Closed — the code resets only after
    3 consecutive successes, ignoring the configured value 2. -/
theorem half_open_success_threshold_counterexample :
    (applyFailures (CircuitBreaker.new 5 30) [0, 0, 0, 0, 0]).state 31 = .HalfOpen ∧
    ((applyFailures (CircuitBreaker.new 5 30)
      [0, 0, 0, 0, 0]).record_success.record_success).failure_count = 5 ∧
    ¬(((applyFailures (CircuitBreaker.new 5 30)
        [0, 0, 0, 0, 0]).record_success.record_success).state 31 = .Closed ∧
      ((applyFailures (CircuitBreaker.new 5 30)
        [0, 0, 0, 0, 0]).record_success.record_success).failure_count = 0) := by
  decide

/-- C7 amended: after 3 consecutive successes — the reset count hardcoded
    in `record_success`, not the configured `half_open_success = 2` — the
    failure counter is zero, and hence (for a positive threshold) the
    state is Closed; this holds from any state, in particular HalfOpen. -/
theorem three_successes_reset_breaker (cb : CircuitBreaker)
    (hthr : 0 < cb.threshold) (now : Nat) :
    cb.record_success.record_success.record_success.failure_count = 0 ∧
    cb.record_success.record_success.record_success.state now = .Closed := by
  have h0 : cb.record_success.record_success.record_success.failure_count = 0 ∧
      cb.record_success.record_success.record_success.threshold = cb.threshold := by
    simp only [CircuitBreaker.record_success]
    split_ifs <;> simp_all
  refine ⟨h0.1, ?_⟩
  simp [CircuitBreaker.state, h0.1, h0.2, hthr]

/-- Witness for the amended C7: from the HalfOpen breaker of the
    counterexample, three successes close the circuit and zero the
    failure counter. -/
theorem three_successes_reset_breaker_witness :
    0 < (applyFailures (CircuitBreaker.new 5 30) [0, 0, 0, 0, 0]).threshold ∧
    ((applyFailures (CircuitBreaker.new 5 30)
      [0, 0, 0, 0, 0]).record_success.record_success.record_success).failure_count = 0 ∧
    ((applyFailures (CircuitBreaker.new 5 30)
      [0, 0, 0, 0, 0]).record_success.record_success.record_success).state 31 = .Closed :=
  ⟨by decide,
   (three_successes_reset_breaker _ (by decide) 31).1,
   (three_successes_reset_breaker _ (by decide) 31).2⟩

/-- Counterexample to C8 as stated: after one success with latency 50 the
    EMA is 50; a failed call with observed latency 100 increments total
    and failure counters and stamps last_failure, but leaves the EMA
    latency at 50, whereas the claimed alpha = 0.3 update would give
    0.3 * 100 + 0.7 * 50 = 65.  `record_failure` never touches the
    EMA. -/
theorem record_failure_skips_ema_counterexample :
    (RoutingEngine.record_failure (RoutingEngine.record_success ProviderHealth.init 0 50)
      1 100).avg_latency_ms = 50 ∧
    (3 : Rat) / 10 * 100 + (1 - (3 : Rat) / 10) * 50 = 65 ∧
    ¬((RoutingEngine.record_failure (RoutingEngine.record_success ProviderHealth.init 0 50)
      1 100).avg_latency_ms = (3 : Rat) / 10 * 100 + (1 - (3 : Rat) / 10) * 50) := by
  refine ⟨?_, by norm_num, ?_⟩
  · simp [RoutingEngine.record_failure, RoutingEngine.record_success, ProviderHealth.init]
  · simp [RoutingEngine.record_failure, RoutingEngine.record_success, ProviderHealth.init]
    norm_num

/-- C8 amended: on a successful call the tracker increments total and
    success counters, stamps last_success, and updates the EMA latency
    with alpha = 0.3 — except that a first observation (EMA still 0) is
    stored directly; on a failed call it increments total and failure
    counters and stamps last_failure, leaving the EMA latency (and the
    success fields) unchanged: the observed duration of a failure never
    enters the EMA. -/
theorem health_tracker_update (h : ProviderHealth) (now lat : Nat) :
    (RoutingEngine.record_success h now lat).total_requests = h.total_requests + 1 ∧
    (RoutingEngine.record_success h now lat).successful_requests = h.successful_requests + 1 ∧
    (RoutingEngine.record_success h now lat).failed_requests = h.failed_requests ∧
    (RoutingEngine.record_success h now lat).last_success = some now ∧
    (RoutingEngine.record_success h now lat).last_failure = h.last_failure ∧
    (RoutingEngine.record_success h now lat).avg_latency_ms =
      (if h.avg_latency_ms = 0 then (lat : Rat)
       else (3 : Rat) / 10 * (lat : Rat) + (1 - (3 : Rat) / 10) * h.avg_latency_ms) ∧
    (RoutingEngine.record_failure h now lat).total_requests = h.total_requests + 1 ∧
    (RoutingEngine.record_failure h now lat).failed_requests = h.failed_requests + 1 ∧
    (RoutingEngine.record_failure h now lat).successful_requests = h.successful_requests ∧
    (RoutingEngine.record_failure h now lat).last_failure = some now ∧
    (RoutingEngine.record_failure h now lat).last_success = h.last_success ∧
    (RoutingEngine.record_failure h now lat).avg_latency_ms = h.avg_latency_ms := by
  unfold RoutingEngine.record_success RoutingEngine.record_failure
  split_ifs with hz <;> simp [hz]

/-- Witness for the amended C8 at a concrete health record with a
    non-zero EMA: both update paths evaluate as stated. -/
theorem health_tracker_update_witness :
    (RoutingEngine.record_success
      { total_requests := 2, successful_requests := 1, failed_requests := 1,
        avg_latency_ms := 40, last_success := some 0, last_failure := some 1 }
      7 100).avg_latency_ms =
      (if (40 : Rat) = 0 then (100 : Rat)
       else (3 : Rat) / 10 * (100 : Rat) + (1 - (3 : Rat) / 10) * 40) ∧
    (RoutingEngine.record_failure
      { total_requests := 2, successful_requests := 1, failed_requests := 1,
        avg_latency_ms := 40, last_success := some 0, last_failure := some 1 }
      7 100).avg_latency_ms = 40 :=
  ⟨(health_tracker_update _ 7 100).2.2.2.2.2.1,
   (health_tracker_update _ 7 100).2.2.2.2.2.2.2.2.2.2.2⟩

theorem insertionSort_head_firstMinKey {α : Type} (key : α → Nat) :
    ∀ l : List α,
      (List.insertionSort (fun a b => key a ≤ key b) l).head? = firstMinKey key l := by
  intro l
  induction l with
  | nil => rfl
  | cons x xs ih =>
    show (List.orderedInsert _ x (List.insertionSort _ xs)).head? = _
    cases hs : List.insertionSort (fun a b => key a ≤ key b) xs with
    | nil =>
      rw [hs] at ih
      simp only [firstMinKey, ← ih]
      simp [List.orderedInsert]
    | cons y ys =>
      rw [hs] at ih
      simp only [firstMinKey, ← ih]
      by_cases hxy : key x ≤ key y
      · simp [List.orderedInsert, hxy]
      · simp [List.orderedInsert, hxy]

theorem firstMinKey_none_iff {α : Type} (key : α → Nat) (l : List α) :
    firstMinKey key l = none ↔ l = [] := by
  cases l with
  | nil => simp [firstMinKey]
  | cons x xs =>
    simp only [firstMinKey]
    cases h : firstMinKey key xs <;> simp [h]
    split_ifs <;> simp

theorem firstMinKey_mem_min {α : Type} (key : α → Nat) :
    ∀ (l : List α) (q : α), firstMinKey key l = some q →
      q ∈ l ∧ ∀ x ∈ l, key q ≤ key x := by
  intro l
  induction l with
  | nil => intro q h; simp [firstMinKey] at h
  | cons x xs ih =>
    intro q h
    rcases hx : firstMinKey key xs with _ | p
    · simp only [firstMinKey, hx] at h
      have hq : x = q := by simpa using h
      have hxs : xs = [] := (firstMinKey_none_iff key xs).mp hx
      constructor
      · simp [← hq]
      · intro y hy
        rw [hxs] at hy
        rcases List.mem_cons.mp hy with hy | hy
        · rw [← hq, hy]
        · simp at hy
    · simp only [firstMinKey, hx] at h
      by_cases hxp : key x ≤ key p
      · rw [if_pos hxp] at h
        have hq : x = q := by simpa using h
        constructor
        · simp [← hq]
        · intro y hy
          rcases List.mem_cons.mp hy with hy | hy
          · rw [← hq, hy]
          · exact le_trans (hq ▸ hxp) ((ih p hx).2 y hy)
      · rw [if_neg hxp] at h
        have hq : p = q := by simpa using h
        constructor
        · exact List.mem_cons_of_mem _ (hq ▸ (ih p hx).1)
        · intro y hy
          rcases List.mem_cons.mp hy with hy | hy
          · rw [← hq, hy]; omega
          · exact hq ▸ (ih p hx).2 y hy

theorem firstMinKey_map {α β : Type} (key : β → Nat) (g : α → β) :
    ∀ l : List α,
      firstMinKey key (l.map g) = (firstMinKey (fun a => key (g a)) l).map g := by
  intro l
  induction l with
  | nil => rfl
  | cons x xs ih =>
    simp only [List.map_cons, firstMinKey, ih]
    cases h : firstMinKey (fun a => key (g a)) xs with
    | none => rfl
    | some p =>
      simp only [Option.map_some]
      by_cases hxp : key (g x) ≤ key (g p)
      · simp [hxp]
      · simp [hxp]

/-- C9 (functional correctness): over any engine view in which every
    provider is enabled and health-tracker-healthy, the failover-chain
    selection equals the spec's pick — the provider with the smallest
    numeric priority among those whose circuit is not Open, ties broken
    by insertion order in the input list (`firstMinKey` keeps the
    earliest minimum, and Rust's `sort_by_key` is stable) — it returns
    none exactly when every circuit is open, and any returned provider
    has minimal priority among the circuit-closed ones. -/
theorem failover_picks_min_priority (now : Nat)
    (entries : List (Provider × ProviderHealth × Bool))
    (hen : ∀ e ∈ entries, e.1.enabled = true)
    (hh : ∀ e ∈ entries, (e.2.1).is_healthy now = true) :
    RoutingEngine.select_provider_failover now entries = specFailoverPick entries ∧
    (RoutingEngine.select_provider_failover now entries = none ↔
      ∀ e ∈ entries, e.2.2 = true) ∧
    (∀ q, RoutingEngine.select_provider_failover now entries = some q →
      ∀ e ∈ entries, e.2.2 = false → q.priority ≤ e.1.priority) := by
  have hfilter :
      (entries.map (fun e => RoutingEngine.provider_with_health now e.1 e.2.1 e.2.2)).filter
        (fun p => p.provider.enabled && p.is_healthy) =
      (entries.filter (fun e => !e.2.2)).map
        (fun e => RoutingEngine.provider_with_health now e.1 e.2.1 e.2.2) := by
    rw [List.filter_map]
    congr 1
    apply List.filter_congr
    intro e he
    simp [Function.comp, RoutingEngine.provider_with_health, hen e he, hh e he]
  have hmain : RoutingEngine.select_provider_failover now entries = specFailoverPick entries := by
    unfold RoutingEngine.select_provider_failover FailoverChainStrategy.select_provider
    simp only [hfilter]
    rw [insertionSort_head_firstMinKey (fun p : ProviderWithHealth => p.provider.priority)]
    rw [firstMinKey_map (fun p : ProviderWithHealth => p.provider.priority)
      (fun e : Provider × ProviderHealth × Bool =>
        RoutingEngine.provider_with_health now e.1 e.2.1 e.2.2)]
    rw [Option.map_map]
    unfold specFailoverPick
    rw [firstMinKey_map Provider.priority (fun e : Provider × ProviderHealth × Bool => e.1)]
    rfl
  refine ⟨hmain, ?_, ?_⟩
  · rw [hmain]
    unfold specFailoverPick
    rw [firstMinKey_map Provider.priority (fun e : Provider × ProviderHealth × Bool => e.1)]
    constructor
    · intro h
      have h2 : (entries.filter (fun e => !e.2.2)) = [] := by
        have := (firstMinKey_none_iff (fun e => Provider.priority e.1)
          (entries.filter (fun e => !e.2.2))).mp
        cases hfm : firstMinKey (fun e => Provider.priority e.1)
            (entries.filter (fun e => !e.2.2)) with
        | none => exact this hfm
        | some p => rw [hfm] at h; simp at h
      intro e he
      have := List.filter_eq_nil_iff.mp h2 e he
      simpa using this
    · intro h
      have h2 : (entries.filter (fun e => !e.2.2)) = [] := by
        apply List.filter_eq_nil_iff.mpr
        intro e he
        simp [h e he]
      rw [h2]
      rfl
  · intro q hq e he hopen
    rw [hmain] at hq
    unfold specFailoverPick at hq
    have hmem := firstMinKey_mem_min Provider.priority
      ((entries.filter (fun e => !e.2.2)).map (fun e => e.1)) q hq
    apply hmem.2
    apply List.mem_map_of_mem
    rw [List.mem_filter]
    exact ⟨he, by simp [hopen]⟩

/-- Witness for C9: `provB` has the best priority but an open circuit;
    `provA` and `provC` tie at priority 2 and `provA`, first inserted,
    is selected. -/
theorem failover_picks_min_priority_witness :
    (∀ e ∈ provEntries, e.1.enabled = true) ∧
    (∀ e ∈ provEntries, (e.2.1).is_healthy 0 = true) ∧
    RoutingEngine.select_provider_failover 0 provEntries = specFailoverPick provEntries ∧
    specFailoverPick provEntries = some provA :=
  ⟨by decide, by decide,
   (failover_picks_min_priority 0 provEntries (by decide) (by decide)).1, by decide⟩

/-- C10 (numerical): the backoff before retry k is
    min(initial · multiplier^k, max_backoff) — exactly, for whole-number
    multipliers, since the code truncates the f64 product to whole
    milliseconds — and with max_attempts 4, initial 100 ms, multiplier 2
    and max_backoff 250 ms, a provider failing on every attempt is
    invoked exactly 4 times, the sleeps are 100, 200, 250 (no sleep
    follows the final attempt) and the total backoff is 550 ms. -/
theorem retry_backoff_cap_scenario :
    (∀ (mr init maxb m k : Nat),
      (RetryConfig.mk mr init maxb (m : Rat)).backoff_duration k = min (init * m ^ k) maxb) ∧
    (∀ k, (RetryConfig.mk 4 100 250 ((2 : Nat) : Rat)).backoff_duration k =
      min (100 * 2 ^ k) 250) ∧
    RoutingEngine.route_sim (RetryConfig.mk 4 100 250 ((2 : Nat) : Rat)) (fun _ => false) =
      { invocations := 4, sleeps_ms := [100, 200, 250], succeeded := false } ∧
    (RoutingEngine.route_sim (RetryConfig.mk 4 100 250 ((2 : Nat) : Rat))
      (fun _ => false)).sleeps_ms.sum = 550 := by
  have h1 : ∀ (mr init maxb m k : Nat),
      (RetryConfig.mk mr init maxb (m : Rat)).backoff_duration k = min (init * m ^ k) maxb := by
    intro mr init maxb m k
    have hcast : ((init : Rat) * (m : Rat) ^ k) = ((init * m ^ k : Nat) : Rat) := by
      push_cast
      ring
    have hunfold : (RetryConfig.mk mr init maxb (m : Rat)).backoff_duration k =
        min (Int.toNat ⌊((init : Rat) * (m : Rat) ^ k)⌋) maxb := rfl
    rw [hunfold, hcast, Int.floor_natCast, Int.toNat_natCast]
  have h2 : ∀ k, (RetryConfig.mk 4 100 250 ((2 : Nat) : Rat)).backoff_duration k =
      min (100 * 2 ^ k) 250 := fun k => h1 4 100 250 2 k
  have h3 : RoutingEngine.route_sim (RetryConfig.mk 4 100 250 ((2 : Nat) : Rat))
      (fun _ => false) =
      { invocations := 4, sleeps_ms := [100, 200, 250], succeeded := false } := by
    have hb0 : (RetryConfig.mk 4 100 250 ((2 : Nat) : Rat)).backoff_duration 0 = 100 := by
      rw [h2 0]
      decide
    have hb1 : (RetryConfig.mk 4 100 250 ((2 : Nat) : Rat)).backoff_duration 1 = 200 := by
      rw [h2 1]
      decide
    have hb2 : (RetryConfig.mk 4 100 250 ((2 : Nat) : Rat)).backoff_duration 2 = 250 := by
      rw [h2 2]
      decide
    rw [show RoutingEngine.route_sim (RetryConfig.mk 4 100 250 ((2 : Nat) : Rat))
        (fun _ => false) =
      routeLoop (RetryConfig.mk 4 100 250 ((2 : Nat) : Rat)) (fun _ => false) 3 1 1
        [(RetryConfig.mk 4 100 250 ((2 : Nat) : Rat)).backoff_duration 0] from rfl, hb0]
    rw [show routeLoop (RetryConfig.mk 4 100 250 ((2 : Nat) : Rat)) (fun _ => false) 3 1 1
        [100] =
      routeLoop (RetryConfig.mk 4 100 250 ((2 : Nat) : Rat)) (fun _ => false) 2 2 2
        [100, (RetryConfig.mk 4 100 250 ((2 : Nat) : Rat)).backoff_duration 1] from rfl, hb1]
    rw [show routeLoop (RetryConfig.mk 4 100 250 ((2 : Nat) : Rat)) (fun _ => false) 2 2 2
        [100, 200] =
      routeLoop (RetryConfig.mk 4 100 250 ((2 : Nat) : Rat)) (fun _ => false) 1 3 3
        [100, 200, (RetryConfig.mk 4 100 250 ((2 : Nat) : Rat)).backoff_duration 2] from rfl,
      hb2]
    rfl
  refine ⟨h1, h2, h3, ?_⟩
  rw [h3]
  rfl
